import Mathlib

/-!
Verification of the netbox-dns-install provisioning installer.

Shallow embedding of `install.py`, `config.py` and the modules
`bind_install.py`, `octodns_install.py`, `ipdns_install.py`,
`pip_dependencies.py`.  External effects (subprocess exit codes,
filesystem operations, wall-clock time) are abstracted as explicit
oracle parameters; the control flow, return values and the data
transformations are translated from the source.
-/

namespace NetboxDnsInstall

/-- Python truthiness of an optional string argument (`None` and the
empty string are falsy; argparse stores `None` for an absent option). -/
def pyTruthy : Option String → Bool
  | none => false
  | some s => !(s == "")

/-! ### Python call binding (install.py wiring, claim C1)

A Python function parameter either has a default or is required.  A call
made purely with keyword arguments raises `TypeError` iff some required
parameter receives no argument or some keyword matches no parameter. -/

/-- A parameter of a Python function signature. -/
structure PyParam where
  name : String
  hasDefault : Bool
deriving DecidableEq

/-- Whether a Python call that passes exactly the keyword arguments
`kwargs` to a function with parameter list `params` raises `TypeError`:
true iff a required parameter is unbound or a keyword is unexpected. -/
def callRaisesTypeError (params : List PyParam) (kwargs : List String) : Bool :=
  params.any (fun p => !p.hasDefault && !(kwargs.contains p.name))
    || kwargs.any (fun k => !((params.map PyParam.name).contains k))

/-- Parameter list of `bind_install.install_dns`
(bind_install.py lines 466-469). -/
def install_dns_params : List PyParam :=
  [ ⟨"configs_path", false⟩, ⟨"primary_config_dir", false⟩,
    ⟨"bind_packages", false⟩, ⟨"chroot_etc", false⟩,
    ⟨"chroot_log", false⟩, ⟨"etc_directories", false⟩,
    ⟨"managed_directories", false⟩, ⟨"dir_mode", false⟩,
    ⟨"bind_user", false⟩, ⟨"bind_group", false⟩,
    ⟨"bind_service", false⟩, ⟨"source_named_files", false⟩,
    ⟨"dest_named_files", false⟩, ⟨"primary_ip", true⟩,
    ⟨"secondary_ip", true⟩ ]

/-- Keyword arguments passed by `install.py`'s `run_dns_install`
(install.py lines 174-188). -/
def run_dns_install_kwargs : List String :=
  [ "configs_path", "primary_config_dir", "bind_packages", "chroot_etc",
    "chroot_log", "etc_directories", "managed_directories", "dir_mode",
    "bind_user", "bind_group", "bind_service", "primary_ip",
    "secondary_ip" ]

/-- Parameter list of `ipdns_install.install_ipdns`
(ipdns_install.py lines 751-755); every parameter is required. -/
def install_ipdns_params : List PyParam :=
  [ ⟨"repo_url", false⟩, ⟨"plugins_path", false⟩, ⟨"ipdns_config", false⟩,
    ⟨"shared_dir", false⟩, ⟨"dir_mode", false⟩, ⟨"user", false⟩,
    ⟨"group", false⟩, ⟨"netbox_override_dir", false⟩,
    ⟨"rqworker_override_dir", false⟩, ⟨"service_override_content", false⟩,
    ⟨"sudoers_file", false⟩, ⟨"sudoers_content", false⟩,
    ⟨"services", false⟩, ⟨"netbox_config_file", false⟩,
    ⟨"logging_config", false⟩, ⟨"plugins_list", false⟩,
    ⟨"plugins_config_settings", false⟩, ⟨"python_path", false⟩,
    ⟨"manage_py", false⟩, ⟨"log_dir", false⟩, ⟨"log_file", false⟩,
    ⟨"pip_path", false⟩ ]

/-- Keyword arguments passed by `install.py`'s `run_ipdns_install`
(install.py lines 248-252). -/
def run_ipdns_install_kwargs : List String :=
  [ "repo_url", "plugins_path", "ipdns_config" ]

/-- The wired call into `install_dns` raises `TypeError`. -/
def run_dns_install_raises : Bool :=
  callRaisesTypeError install_dns_params run_dns_install_kwargs

/-- The wired call into `install_ipdns` raises `TypeError`. -/
def run_ipdns_install_raises : Bool :=
  callRaisesTypeError install_ipdns_params run_ipdns_install_kwargs

/-! ### Argument parsing and main (install.py) -/

/-- The argparse namespace produced by `parse_arguments`
(install.py lines 72-121). -/
structure Args where
  pip_packages : Bool
  dns : Bool
  octodns : Bool
  ipdns : Bool
  all : Bool
  primary : Bool
  secondary : Option String
deriving DecidableEq

/-- Validation in `parse_arguments` (install.py lines 122-135); `false`
means `parser.error` is raised (argparse then exits with code 2). -/
def parse_arguments_validate (a : Args) : Bool :=
  if (a.dns || a.all) && (!a.primary && !(pyTruthy a.secondary)) then false
  else if (a.dns || a.all) && (a.primary && pyTruthy a.secondary) then false
  else if !a.pip_packages && !a.dns && !a.octodns && !a.ipdns && !a.all then
    false
  else true

/-- The four installation modules dispatched by `main`. -/
inductive Module where
  | pip
  | dns
  | octodns
  | ipdns
deriving DecidableEq

/-- Result returned by each module's run function, abstracted as a
boolean oracle (only consulted for the module calls that bind). -/
structure ModuleResults where
  pip : Bool
  dns : Bool
  octodns : Bool
  ipdns : Bool
deriving DecidableEq

/-- How a `main` invocation ends: a process exit with the given code
after running the listed modules, or termination by the uncaught
`TypeError` from a mis-wired module call (also a non-zero process
exit); the list records the module run functions that returned. -/
inductive MainOutcome where
  | exited (code : Nat) (ran : List Module)
  | raised (ran : List Module)
deriving DecidableEq

/-- Model of `main` (install.py lines 255-313): validates arguments, runs the
requested modules in order (pip, dns, octodns, ipdns), accumulates the
aggregate success flag, and exits 1 on failure.  The dns and ipdns
calls are checked against their wiring: when the call cannot bind,
the `TypeError` propagates out of `main`. -/
def main (a : Args) (r : ModuleResults) : MainOutcome :=
  if !(parse_arguments_validate a) then .exited 2 []
  else
    let run_pip := a.pip_packages || a.all
    let run_dns := a.dns || a.all
    let run_octodns := a.octodns || a.all
    let run_ipdns := a.ipdns || a.all
    -- success := True; each requested module may clear it
    let (s1, t1) :=
      if run_pip then (r.pip, [Module.pip]) else (true, [])
    if run_dns && run_dns_install_raises then .raised t1
    else
      let (s2, t2) :=
        if run_dns then (s1 && r.dns, t1 ++ [Module.dns]) else (s1, t1)
      let (s3, t3) :=
        if run_octodns then (s2 && r.octodns, t2 ++ [Module.octodns])
        else (s2, t2)
      if run_ipdns && run_ipdns_install_raises then .raised t3
      else
        let (s4, t4) :=
          if run_ipdns then (s3 && r.ipdns, t3 ++ [Module.ipdns])
          else (s3, t3)
        if s4 then .exited 0 t4 else .exited 1 t4

/-! ### The BIND install sequence (bind_install.py, claims C2 and C4)

`install_dns` is a chain of `if not step(...): return False` blocks.
Each step action shells out or touches the filesystem; its boolean
result is abstracted into an oracle record, and the orchestrator is
translated block by block, also returning the trace of the steps whose
functions were invoked, in order. -/

/-- The steps of `install_dns` (bind_install.py lines 507-581), plus
the `os.path.exists` check guarding the secondary config directory. -/
inductive DnsStep where
  | installPackages
  | createDirectories
  | createLogDirectory
  | createDynamicDir
  | copyNamedFiles
  | copyConfigFiles
  | addUserToGroup
  | setOwnership
  | setPermissions
  | setSgid
  | enableStartService
deriving DecidableEq

/-- Boolean results of the step functions of `install_dns`, as an
oracle: the value a step's function returns when invoked. -/
structure DnsStepResults where
  install_bind_packages : Bool
  create_directories : Bool
  create_log_directory : Bool
  create_dynamic_dir : Bool
  copy_named_files : Bool
  secondary_dir_exists : Bool
  copy_config_files : Bool
  add_user_to_group : Bool
  set_ownership : Bool
  set_permissions : Bool
  set_sgid : Bool
  enable_and_start_service : Bool
deriving DecidableEq

/-- Steps 7-11 of `install_dns` (bind_install.py lines 559-587), the
code after the primary/secondary branch: `add_user_to_group` is
invoked but its failure only logs a warning and does not return. -/
def install_dns_after_config (e : DnsStepResults) (tr : List DnsStep) :
    Bool × List DnsStep :=
  let tr := tr ++ [DnsStep.addUserToGroup]
  if !e.set_ownership then (false, tr ++ [DnsStep.setOwnership])
  else if !e.set_permissions then
    (false, tr ++ [DnsStep.setOwnership, DnsStep.setPermissions])
  else if !e.set_sgid then
    (false, tr ++ [DnsStep.setOwnership, DnsStep.setPermissions,
      DnsStep.setSgid])
  else if !e.enable_and_start_service then
    (false, tr ++ [DnsStep.setOwnership, DnsStep.setPermissions,
      DnsStep.setSgid, DnsStep.enableStartService])
  else
    (true, tr ++ [DnsStep.setOwnership, DnsStep.setPermissions,
      DnsStep.setSgid, DnsStep.enableStartService])

/-- Model of `install_dns` (bind_install.py lines 466-588): role validation,
then the step chain; returns the aggregate result and the trace of
invoked step functions. -/
def install_dns (primary_ip secondary_ip : Option String)
    (e : DnsStepResults) : Bool × List DnsStep :=
  if !(pyTruthy primary_ip) && !(pyTruthy secondary_ip) then (false, [])
  else if pyTruthy primary_ip && pyTruthy secondary_ip then (false, [])
  else if !e.install_bind_packages then (false, [DnsStep.installPackages])
  else if !e.create_directories then
    (false, [DnsStep.installPackages, DnsStep.createDirectories])
  else if !e.create_log_directory then
    (false, [DnsStep.installPackages, DnsStep.createDirectories,
      DnsStep.createLogDirectory])
  else if !e.create_dynamic_dir then
    (false, [DnsStep.installPackages, DnsStep.createDirectories,
      DnsStep.createLogDirectory, DnsStep.createDynamicDir])
  else if !e.copy_named_files then
    (false, [DnsStep.installPackages, DnsStep.createDirectories,
      DnsStep.createLogDirectory, DnsStep.createDynamicDir,
      DnsStep.copyNamedFiles])
  else if pyTruthy primary_ip then
    -- primary install: copy from netbox-primary with ACL substitution
    if !e.copy_config_files then
      (false, [DnsStep.installPackages, DnsStep.createDirectories,
        DnsStep.createLogDirectory, DnsStep.createDynamicDir,
        DnsStep.copyNamedFiles, DnsStep.copyConfigFiles])
    else
      install_dns_after_config e
        [DnsStep.installPackages, DnsStep.createDirectories,
          DnsStep.createLogDirectory, DnsStep.createDynamicDir,
          DnsStep.copyNamedFiles, DnsStep.copyConfigFiles]
  else if !e.secondary_dir_exists then
    -- configuration directory for the secondary IP not found:
    -- copy_config_files is never invoked
    (false, [DnsStep.installPackages, DnsStep.createDirectories,
      DnsStep.createLogDirectory, DnsStep.createDynamicDir,
      DnsStep.copyNamedFiles])
  else if !e.copy_config_files then
    (false, [DnsStep.installPackages, DnsStep.createDirectories,
      DnsStep.createLogDirectory, DnsStep.createDynamicDir,
      DnsStep.copyNamedFiles, DnsStep.copyConfigFiles])
  else
    install_dns_after_config e
      [DnsStep.installPackages, DnsStep.createDirectories,
        DnsStep.createLogDirectory, DnsStep.createDynamicDir,
        DnsStep.copyNamedFiles, DnsStep.copyConfigFiles]

/-! ### The OctoDNS install sequence (octodns_install.py, claim C2) -/

/-- Runs a chain of `if not step(...): return False` blocks: invoke
each step in order, stop at the first `False`, return `True` when all
succeed, and also return the trace of invoked steps. -/
def runSteps {α : Type} : List (α × Bool) → Bool × List α
  | [] => (true, [])
  | (st, ok) :: rest =>
    if ok then
      let (b, tr) := runSteps rest
      (b, st :: tr)
    else (false, [st])

/-- Model of `check_packages_installed` (bind_install.py lines 93-120): queries
`rpm -q` per package and collects the missing ones; a query answering
non-zero (or failing to spawn) counts the package as missing.  The
oracle `rpmOk p` is true iff `rpm -q p` exits 0. -/
def check_packages_installed (rpmOk : String → Bool) :
    List String → List String
  | [] => []
  | p :: rest =>
    if rpmOk p then check_packages_installed rpmOk rest
    else p :: check_packages_installed rpmOk rest

/-- Model of `install_bind_packages` (bind_install.py lines 123-146): returns
the result together with whether `dnf install` was invoked.  `dnfOk`
is the exit status of the `dnf install -y` command when run. -/
def install_bind_packages (rpmOk : String → Bool) (dnfOk : Bool)
    (packages : List String) : Bool × Bool :=
  let missing := check_packages_installed rpmOk packages
  if missing.isEmpty then (true, false)
  else (dnfOk, true)

/-- Value of `BIND_PACKAGES` (config.py lines 103-107). -/
def BIND_PACKAGES : List String :=
  [ "bind", "bind-chroot", "bind-utils" ]

/-- Model of `clone_repository` (ipdns_install.py lines 553-599): if the clone
target directory already exists the clone is skipped and the function
returns True; otherwise `git clone` runs and its exit status decides.
Returns the result together with whether `git clone` was invoked. -/
def clone_repository (repo_url dest_path : String)
    (targetDirExists gitOk : Bool) : Bool × Bool :=
  if targetDirExists then (true, false)
  else (gitOk, true)

/-! ### stop_services (ipdns_install.py lines 18-52, claim C10) -/

/-- Outcome of invoking one external command: an exit code, or a
`subprocess.SubprocessError` raised while spawning it. -/
inductive CmdOutcome where
  | exit (code : Nat)
  | subprocessError
deriving DecidableEq

/-- Model of `stop_services` (ipdns_install.py lines 18-52): runs
`systemctl stop` per service; a non-zero exit only logs a warning and
iteration continues; a `SubprocessError` returns False immediately;
True is returned after the loop. -/
def stop_services (outcome : String → CmdOutcome) : List String → Bool
  | [] => true
  | s :: rest =>
    match outcome s with
    | CmdOutcome.exit _ => stop_services outcome rest
    | CmdOutcome.subprocessError => false

/-- Value of `NETBOX_SERVICES` (config.py lines 224-228). -/
def NETBOX_SERVICES : List String :=
  [ "netbox", "netbox-rqworker@1", "netbox.socket" ]

/-! ### OctoDNS directory provisioning state (claim C9)

The filesystem state of the one provisioned directory, and the three
provisioning steps of `install_octodns` (octodns_install.py lines
156-166) as state transformers.  The chown shell-out and the chmod
system calls can fail; their outcomes are oracle flags, fixed for the
run (the same environment answers both runs in the idempotency
claim). -/

/-- Value of `stat.S_ISGID`. -/
def S_ISGID : Nat := 0o2000

/-- Ownership and permission state of a directory path. -/
structure DirState where
  present : Bool
  owner : String
  group : String
  mode : Nat
deriving DecidableEq

/-- Model of `os.makedirs(path, exist_ok=True)`: creates the directory when
absent (fresh directories start with the process-default ownership
`defOwner:defGroup` and mode `defMode`); succeeds when it already
exists. -/
def makedirs (mkdirOk : Bool) (defOwner defGroup : String) (defMode : Nat)
    (s : DirState) : Bool × DirState :=
  if s.present then (true, s)
  else if mkdirOk then (true, ⟨true, defOwner, defGroup, defMode⟩)
  else (false, s)

/-- Model of `create_config_directory` (octodns_install.py lines 17-34):
`os.makedirs(config_dir, exist_ok=True)`, False on `OSError`. -/
def create_config_directory (mkdirOk : Bool) (defOwner defGroup : String)
    (defMode : Nat) (s : DirState) : Bool × DirState :=
  makedirs mkdirOk defOwner defGroup defMode s

/-- Model of `set_directory_ownership` (octodns_install.py lines 37-68): runs
`chown user:group directory`; exit 0 sets the ownership. -/
def set_directory_ownership (chownOk : Bool) (user group : String)
    (s : DirState) : Bool × DirState :=
  if chownOk then (true, { s with owner := user, group := group })
  else (false, s)

/-- Model of `set_directory_permissions` (octodns_install.py lines 71-97):
`os.chmod(directory, mode)`, then reads the mode back and
`os.chmod(directory, current | S_ISGID)`; `OSError` on either chmod
returns False. -/
def set_directory_permissions (chmod1Ok chmod2Ok : Bool) (mode : Nat)
    (s : DirState) : Bool × DirState :=
  if !chmod1Ok then (false, s)
  else
    let s1 := { s with mode := mode }
    if !chmod2Ok then (false, s1)
    else (true, { s1 with mode := s1.mode ||| S_ISGID })

/-- Steps 1-3 of `install_octodns` (octodns_install.py lines 156-166):
create the config directory, set its ownership, set its permissions
with the SGID bit; the first failing step aborts. -/
def octodns_provision (mkdirOk chownOk chmod1Ok chmod2Ok : Bool)
    (defOwner defGroup : String) (defMode : Nat) (user group : String)
    (mode : Nat) (s : DirState) : Bool × DirState :=
  let r1 := create_config_directory mkdirOk defOwner defGroup defMode s
  if !r1.1 then (false, r1.2)
  else
    let r2 := set_directory_ownership chownOk user group r1.2
    if !r2.1 then (false, r2.2)
    else set_directory_permissions chmod1Ok chmod2Ok mode r2.2

/-! ### Python string.Template substitution (claim C5)

`octodns_install.create_config_file` substitutes a template with
`string.Template(template).substitute(server_url=..,
server_api_key=.., server_ip=..)`.  `Template.substitute` scans the
text for `$$`, `$name` and `$\x7bname\x7d` escapes; a referenced name
absent from the passed mapping raises `KeyError`, and a lone or
ill-formed `$` escape raises `ValueError`. -/

/-- Errors of `Template.substitute`. -/
inductive TmplError where
  | keyError (name : String)
  | valueError
deriving DecidableEq

/-- Opening brace character (written numerically). -/
def lbraceChar : Char := Char.ofNat 123

/-- Closing brace character (written numerically). -/
def rbraceChar : Char := Char.ofNat 125

/-- First character of a Template identifier: ASCII letter or `_`. -/
def isIdentStart (c : Char) : Bool := c.isAlpha || c == '_'

/-- Later characters of a Template identifier. -/
def isIdentChar (c : Char) : Bool := c.isAlphanum || c == '_'

/-- Longest run of identifier characters at the head of the input,
and the rest. -/
def takeIdent : List Char → List Char × List Char
  | [] => ([], [])
  | c :: cs =>
    if isIdentChar c then
      let (i, r) := takeIdent cs
      (c :: i, r)
    else ([], c :: cs)

/-- Scanner of `Template.substitute` over the character list; `fuel`
only bounds the recursion and never runs out when it starts at the
input length plus one, since every recursive call consumes at least
one character. -/
def tmplGo (m : List (String × String)) :
    Nat → List Char → Except TmplError (List Char)
  | _, [] => Except.ok []
  | 0, _ :: _ => Except.error TmplError.valueError
  | fuel + 1, c :: rest =>
    if c == '$' then
      match rest with
      | [] => Except.error TmplError.valueError
      | c2 :: rest2 =>
        if c2 == '$' then
          match tmplGo m fuel rest2 with
          | Except.ok t => Except.ok ('$' :: t)
          | Except.error e => Except.error e
        else if c2 == lbraceChar then
          match rest2 with
          | [] => Except.error TmplError.valueError
          | c3 :: rest3 =>
            if isIdentStart c3 then
              let (i, r4) := takeIdent rest3
              match r4 with
              | [] => Except.error TmplError.valueError
              | c5 :: rest5 =>
                if c5 == rbraceChar then
                  match m.lookup (String.mk (c3 :: i)) with
                  | some v =>
                    match tmplGo m fuel rest5 with
                    | Except.ok t => Except.ok (v.data ++ t)
                    | Except.error e => Except.error e
                  | none =>
                    Except.error (TmplError.keyError (String.mk (c3 :: i)))
                else Except.error TmplError.valueError
            else Except.error TmplError.valueError
        else if isIdentStart c2 then
          let (i, r3) := takeIdent rest2
          match m.lookup (String.mk (c2 :: i)) with
          | some v =>
            match tmplGo m fuel r3 with
            | Except.ok t => Except.ok (v.data ++ t)
            | Except.error e => Except.error e
          | none => Except.error (TmplError.keyError (String.mk (c2 :: i)))
        else Except.error TmplError.valueError
    else
      match tmplGo m fuel rest with
      | Except.ok t => Except.ok (c :: t)
      | Except.error e => Except.error e

/-- Model of `Template(template).substitute(mapping)`. -/
def templateSubstitute (m : List (String × String)) (s : String) :
    Except TmplError String :=
  match tmplGo m (s.data.length + 1) s.data with
  | Except.ok t => Except.ok (String.mk t)
  | Except.error e => Except.error e

/-- Model of `create_config_file` (octodns_install.py lines 100-131).  The three
values `env_config["server_url"]`, `env_config["server_api_key"]` and
`env_config["server_ip"]` are looked up first (a missing key raises
`KeyError`), then `substitute` runs with exactly those three names as
its mapping, then the file is written.  `OSError` and `KeyError` are
caught and return False with nothing written; a `ValueError` from
`substitute` propagates (modeled as `Except.error ()`).  The result
carries the returned boolean and the content written to the
destination (`none` when the destination was not written). -/
def create_config_file (config_file_template : String)
    (env_config : List (String × String)) (writeOk : Bool) :
    Except Unit (Bool × Option String) :=
  match env_config.lookup ("server_url") with
  | none => Except.ok (false, none)
  | some u =>
    match env_config.lookup ("server_api_key") with
    | none => Except.ok (false, none)
    | some k =>
      match env_config.lookup ("server_ip") with
      | none => Except.ok (false, none)
      | some i =>
        match templateSubstitute
            [("server_url", u), ("server_api_key", k), ("server_ip", i)]
            config_file_template with
        | Except.error (TmplError.keyError _) => Except.ok (false, none)
        | Except.error TmplError.valueError => Except.error ()
        | Except.ok content =>
          if writeOk then Except.ok (true, some content)
          else Except.ok (false, none)

/-! ### Timestamps and backups (bind_install.py, claim C6) -/

/-- A wall-clock datetime as read by `datetime.now()`. -/
structure DateTime where
  year : Nat
  month : Nat
  day : Nat
  hour : Nat
  minute : Nat
  second : Nat
deriving DecidableEq

/-- The decimal digit character for `n < 10`. -/
def digitChar (n : Nat) : Char := Char.ofNat (48 + n)

/-- Two-digit zero-padded rendering (`%m`, `%d`, `%H`, `%M`, `%S`). -/
def pad2 (n : Nat) : List Char := [digitChar (n / 10), digitChar (n % 10)]

/-- Four-digit zero-padded rendering (`%Y` for years below 10000),
written as the two-digit renderings of the upper and lower halves. -/
def pad4 (n : Nat) : List Char := pad2 (n / 100) ++ pad2 (n % 100)

/-- Model of `datetime.now().strftime("%Y%m%d_%H%M%S")`
(bind_install.py line 71). -/
def timestamp_chars (t : DateTime) : List Char :=
  pad4 t.year ++ (pad2 t.month ++ (pad2 t.day ++
    ('_' :: (pad2 t.hour ++ (pad2 t.minute ++ pad2 t.second)))))

/-- Byte-wise lexicographic comparison of character lists: the order
in which backup file names sort. -/
def lexCmp : List Char → List Char → Ordering
  | [], [] => Ordering.eq
  | [], _ :: _ => Ordering.lt
  | _ :: _, [] => Ordering.gt
  | a :: as_, b :: bs =>
    if a < b then Ordering.lt
    else if b < a then Ordering.gt
    else lexCmp as_ bs

/-- Comparison of naturals as an `Ordering`. -/
def natCmp (a b : Nat) : Ordering :=
  if a < b then Ordering.lt
  else if b < a then Ordering.gt
  else Ordering.eq

/-- Chronological comparison of datetimes (year, then month, day,
hour, minute, second). -/
def chronCmp (t1 t2 : DateTime) : Ordering :=
  (natCmp t1.year t2.year).then ((natCmp t1.month t2.month).then
    ((natCmp t1.day t2.day).then ((natCmp t1.hour t2.hour).then
      ((natCmp t1.minute t2.minute).then (natCmp t1.second t2.second)))))

/-- Field bounds under which the zero-padded renderings fit their
widths (any real calendar datetime satisfies them). -/
def DateTime.wf (t : DateTime) : Prop :=
  t.year < 10000 ∧ t.month < 100 ∧ t.day < 100 ∧ t.hour < 100 ∧
    t.minute < 100 ∧ t.second < 100

instance (t : DateTime) : Decidable t.wf := by
  unfold DateTime.wf; infer_instance

/-- Model of `backup_file` (bind_install.py lines 52-90).  `content` is the
current content of `file_path` (`none` when the file does not exist);
the result carries the returned boolean and the backup created, as a
(backup file name, backed-up content) pair.  The flags are the
outcomes of `os.makedirs` on a missing backup directory and of
`shutil.copy2`. -/
def backup_file (content : Option String) (fname : String)
    (now : DateTime) (bdirExists bmkdirOk bcopyOk : Bool) :
    Bool × Option (String × String) :=
  match content with
  | none => (true, none)
  | some c =>
    let backup_filename := fname ++ "." ++ String.mk (timestamp_chars now)
    if !bdirExists && !bmkdirOk then (false, none)
    else if bcopyOk then (true, some (backup_filename, c))
    else (false, none)

/-- One file processed by `copy_named_files` or `copy_config_files`:
its name, the source content, the destination content before the run
(`none` when the destination does not exist), and the outcomes of the
backup copy, the overwrite copy, and (for `named.conf.acl` on primary
installs) the write inside `update_acl_file`. -/
structure CopyFile where
  name : String
  srcContent : String
  destContent : Option String
  backup_copy_ok : Bool
  copy_ok : Bool
  acl_write_ok : Bool
deriving DecidableEq

/-- Accumulator of the copy loops: the `success` flag, the destination
contents after the processed files, and the backups created. -/
abbrev CopyAcc : Type :=
  Bool × List (String × Option String) × List (String × String)

/-- The loop body of `copy_named_files` (bind_install.py lines
228-246): back up an existing destination (a backup failure skips the
copy and clears `success`), then `shutil.copy2` the file. -/
def copy_named_step (now : DateTime) (bdirExists bmkdirOk : Bool)
    (acc : CopyAcc) (f : CopyFile) : CopyAcc :=
  let (success, dests, backups) := acc
  if f.destContent.isSome then
    match backup_file f.destContent f.name now bdirExists bmkdirOk
        f.backup_copy_ok with
    | (false, _) => (false, dests ++ [(f.name, f.destContent)], backups)
    | (true, b) =>
      if f.copy_ok then
        (success, dests ++ [(f.name, some f.srcContent)],
          backups ++ b.toList)
      else (false, dests ++ [(f.name, f.destContent)], backups ++ b.toList)
  else
    if f.copy_ok then (success, dests ++ [(f.name, some f.srcContent)],
      backups)
    else (false, dests ++ [(f.name, none)], backups)

/-- Model of `copy_named_files` (bind_install.py lines 194-246): no files is a
warning and success; a missing destination directory that cannot be
created aborts; otherwise the loop body runs per file. -/
def copy_named_files (now : DateTime)
    (destDirExists destMkdirOk bdirExists bmkdirOk : Bool)
    (files : List CopyFile) : CopyAcc :=
  if files.isEmpty then (true, [], [])
  else if !destDirExists && !destMkdirOk then (false, [], [])
  else files.foldl (copy_named_step now bdirExists bmkdirOk) (true, [], [])

/-! ### Config file copying with ACL substitution (claim C3) -/

/-- Model of `update_acl_file` (bind_install.py lines 319-341): reads
the file, replaces every `$ip` with the address, writes it back.  The
`IOError` of a failing write is caught inside the function and only
logged; the Python function returns `None`, so no success value
reaches the caller.  The result is the file content after the call
together with whether an error was logged. -/
def update_acl_file (content ip_address : String) (writeOk : Bool) :
    String × Bool :=
  if writeOk then (content.replace ("$ip") ip_address, false)
  else (content, true)

/-- The loop body of `copy_config_files` (bind_install.py lines
293-314): back up an existing destination (a backup failure skips the
copy and clears `success`), `shutil.copy2` the file, and for primary
installs run `update_acl_file` on `named.conf.acl` — whose outcome is
not consulted and leaves `success` untouched. -/
def copy_config_step (now : DateTime) (bdirExists bmkdirOk : Bool)
    (primary_ip : Option String) (acc : CopyAcc) (f : CopyFile) : CopyAcc :=
  let (success, dests, backups) := acc
  if f.destContent.isSome then
    match backup_file f.destContent f.name now bdirExists bmkdirOk
        f.backup_copy_ok with
    | (false, _) => (false, dests ++ [(f.name, f.destContent)], backups)
    | (true, b) =>
      if f.copy_ok then
        if pyTruthy primary_ip && f.name == "named.conf.acl" then
          (success, dests ++ [(f.name, some
            (update_acl_file f.srcContent (primary_ip.getD "")
              f.acl_write_ok).1)], backups ++ b.toList)
        else
          (success, dests ++ [(f.name, some f.srcContent)],
            backups ++ b.toList)
      else (false, dests ++ [(f.name, f.destContent)], backups ++ b.toList)
  else
    if f.copy_ok then
      if pyTruthy primary_ip && f.name == "named.conf.acl" then
        (success, dests ++ [(f.name, some
          (update_acl_file f.srcContent (primary_ip.getD "")
            f.acl_write_ok).1)], backups)
      else (success, dests ++ [(f.name, some f.srcContent)], backups)
    else (false, dests ++ [(f.name, none)], backups)

/-- Model of `copy_config_files` (bind_install.py lines 249-316) for a
single-level source directory: a missing source directory aborts, a
destination directory that is missing and cannot be created marks the
walk level failed (its files skipped), otherwise the loop body runs
per file of the walk. -/
def copy_config_files (now : DateTime) (sourceDirExists : Bool)
    (destDirExists destMkdirOk bdirExists bmkdirOk : Bool)
    (primary_ip : Option String) (files : List CopyFile) : CopyAcc :=
  if !sourceDirExists then (false, [], [])
  else if !destDirExists && !destMkdirOk then (false, [], [])
  else files.foldl (copy_config_step now bdirExists bmkdirOk primary_ip)
    (true, [], [])

/-! ## Theorems -/

/-- The wired dns call fails Python argument binding. -/
theorem run_dns_raises_eq : run_dns_install_raises = true := by decide

/-- The wired ipdns call fails Python argument binding. -/
theorem run_ipdns_raises_eq : run_ipdns_install_raises = true := by decide

/-- C10: `stop_services` returns True whenever no `systemctl stop`
invocation raises `SubprocessError`, regardless of the exit codes of
the individual stop commands; it returns False only when some service
in the list makes the invocation raise `SubprocessError`. -/
theorem stop_services_best_effort :
    (∀ (outcome : String → CmdOutcome) (services : List String),
      (∀ s ∈ services, outcome s ≠ CmdOutcome.subprocessError) →
      stop_services outcome services = true) ∧
    (∀ (outcome : String → CmdOutcome) (services : List String),
      stop_services outcome services = false →
      ∃ s ∈ services, outcome s = CmdOutcome.subprocessError) := by
  constructor
  · intro f l h
    induction l with
    | nil => rfl
    | cons s t ih =>
      have hs := h s (List.mem_cons_self s t)
      rcases hf : f s with c | _
      · simp only [stop_services, hf]
        exact ih (fun x hx => h x (List.mem_cons_of_mem s hx))
      · exact absurd hf hs
  · intro f l h
    induction l with
    | nil => simp [stop_services] at h
    | cons s t ih =>
      rcases hf : f s with c | _
      · simp only [stop_services, hf] at h
        obtain ⟨x, hx, ho⟩ := ih h
        exact ⟨x, List.mem_cons_of_mem s hx, ho⟩
      · exact ⟨s, List.mem_cons_self s t, hf⟩

/-- C10 witness: a run where every stop command exits non-zero still
returns True. -/
theorem stop_services_best_effort_witness :
    stop_services (fun _ => CmdOutcome.exit 1) NETBOX_SERVICES = true :=
  stop_services_best_effort.1 (fun _ => CmdOutcome.exit 1) NETBOX_SERVICES
    (fun _ _ => by simp)

/-- All packages installed means the missing list is empty. -/
theorem check_packages_all_installed (rpmOk : String → Bool) :
    ∀ (l : List String), (∀ p ∈ l, rpmOk p = true) →
    check_packages_installed rpmOk l = [] := by
  intro l h
  induction l with
  | nil => rfl
  | cons p t ih =>
    have hp := h p (List.mem_cons_self p t)
    simp only [check_packages_installed, hp, if_true]
    exact ih (fun x hx => h x (List.mem_cons_of_mem p hx))

/-- C7: when every package is already installed (each `rpm -q` exits
0), `install_bind_packages` returns True without invoking the
`dnf install` command; when the clone target directory already exists,
`clone_repository` returns True without invoking `git clone` (the
second component of each result records whether the command ran). -/
theorem idempotency_checks_skip_action :
    (∀ (rpmOk : String → Bool) (dnfOk : Bool) (packages : List String),
      (∀ p ∈ packages, rpmOk p = true) →
      install_bind_packages rpmOk dnfOk packages = (true, false)) ∧
    (∀ (repo_url dest_path : String) (gitOk : Bool),
      clone_repository repo_url dest_path true gitOk = (true, false)) := by
  constructor
  · intro rpmOk dnfOk packages h
    simp [install_bind_packages, check_packages_all_installed rpmOk packages h]
  · intro repo dest gitOk
    rfl

/-- C7 witness: the configured BIND package list with every `rpm -q`
exiting 0, and the configured repository with an existing target. -/
theorem idempotency_checks_skip_action_witness :
    install_bind_packages (fun _ => true) false BIND_PACKAGES
        = (true, false) ∧
    clone_repository ("git@github.com:Parzival-88/netbox-ipdns.git")
        ("/opt/netbox/current/netbox/plugins/") true false = (true, false) :=
  ⟨idempotency_checks_skip_action.1 (fun _ => true) false BIND_PACKAGES
      (fun _ _ => rfl),
    idempotency_checks_skip_action.2
      ("git@github.com:Parzival-88/netbox-ipdns.git")
      ("/opt/netbox/current/netbox/plugins/") false⟩

/-- C1: the wired calls from install.py into the dns and ipdns module
entry points raise `TypeError`: `run_dns_install` omits the required
`source_named_files` and `dest_named_files` parameters of
`install_dns`, and `run_ipdns_install` passes only 3 keyword arguments
to `install_ipdns`, which has 22 parameters, all required; hence every
`main` invocation that selects the dns mode (or the ipdns mode) ends
in the uncaught `TypeError` instead of a True/False module result. -/
theorem install_wiring_type_error :
    callRaisesTypeError install_dns_params run_dns_install_kwargs = true ∧
    (install_dns_params.filter (fun p => !p.hasDefault)).all
        (fun p => run_dns_install_kwargs.contains p.name ||
          p.name == "source_named_files" || p.name == "dest_named_files")
        = true ∧
    callRaisesTypeError install_ipdns_params run_ipdns_install_kwargs
        = true ∧
    install_ipdns_params.length = 22 ∧
    install_ipdns_params.all (fun p => !p.hasDefault) = true ∧
    run_ipdns_install_kwargs.length = 3 ∧
    (∀ (a : Args) (r : ModuleResults), parse_arguments_validate a = true →
      (a.dns || a.all) = true →
      main a r = MainOutcome.raised
        (if a.pip_packages || a.all then [Module.pip] else [])) ∧
    (∀ (a : Args) (r : ModuleResults), parse_arguments_validate a = true →
      a.ipdns = true → a.dns = false → a.all = false →
      main a r = MainOutcome.raised
        ((if a.pip_packages then [Module.pip] else []) ++
          (if a.octodns then [Module.octodns] else []))) := by
  refine ⟨by decide, by decide, by decide, by decide, by decide, by decide,
    ?_, ?_⟩
  · intro a r hv hd
    simp [main, hv, hd, run_dns_raises_eq]
    split <;> rfl
  · intro a r hv hi hd ha
    rcases a with ⟨pp, dns, oct, ipd, all, prim, sec⟩
    simp only at hi hd ha
    subst hi hd ha
    simp [main, hv, run_ipdns_raises_eq]
    cases pp <;> cases oct <;> simp

/-- C1 witness: a `--dns --primary` invocation and an `--ipdns`
invocation, both with valid arguments, end in the raised
`TypeError`. -/
theorem install_wiring_type_error_witness :
    main ⟨false, true, false, false, false, true, none⟩
        ⟨true, true, true, true⟩ = MainOutcome.raised [] ∧
    main ⟨false, false, false, true, false, false, none⟩
        ⟨true, true, true, true⟩ = MainOutcome.raised [] :=
  ⟨by
    have h := install_wiring_type_error.2.2.2.2.2.2.1
      ⟨false, true, false, false, false, true, none⟩
      ⟨true, true, true, true⟩ (by decide) (by decide)
    simpa using h,
   by
    have h := install_wiring_type_error.2.2.2.2.2.2.2
      ⟨false, false, false, true, false, false, none⟩
      ⟨true, true, true, true⟩ (by decide) (by decide) (by decide) (by decide)
    simpa using h⟩

/-- C8 counterexample: with `--dns --primary --octodns` and every
module result True, `main` terminates with the uncaught `TypeError`
(a non-zero process exit) although no requested module's run function
returned False, and the later requested octodns module never ran. -/
theorem main_typeerror_exit_cex :
    main ⟨false, true, true, false, false, true, none⟩
        ⟨true, true, true, true⟩ = MainOutcome.raised [] ∧
    parse_arguments_validate ⟨false, true, true, false, false, true, none⟩
        = true := by
  decide

/-- C8 (amended): for invocations whose requested modules all actually
return — i.e. neither the dns nor the ipdns module is requested, the
others being wired correctly — `main` exits 0 exactly when every
requested module returned True and exits 1 otherwise, and a failing
module does not prevent later requested modules from running (both
requested modules appear in the run list regardless of results).
When dns or ipdns is requested the process instead terminates with
the uncaught `TypeError` of claim C1. -/
theorem main_exit_aggregation_amended :
    ∀ (a : Args) (r : ModuleResults), parse_arguments_validate a = true →
      a.dns = false → a.all = false → a.ipdns = false →
      main a r = MainOutcome.exited
        (if (!a.pip_packages || r.pip) && (!a.octodns || r.octodns)
          then 0 else 1)
        ((if a.pip_packages then [Module.pip] else []) ++
          (if a.octodns then [Module.octodns] else [])) := by
  intro a r hv hd ha hi
  rcases a with ⟨pp, dns, oct, ipd, all, prim, sec⟩
  rcases r with ⟨rp, rd, ro, ri⟩
  simp only at hd ha hi
  subst hd ha hi
  cases pp <;> cases oct <;> cases rp <;> cases ro <;>
    simp_all [main]

/-- C8 witness: `--pip-packages --octodns` with a failing pip module
and a succeeding octodns module exits 1 after running both. -/
theorem main_exit_aggregation_amended_witness :
    main ⟨true, false, true, false, false, false, none⟩
        ⟨false, true, true, true⟩
      = MainOutcome.exited 1 [Module.pip, Module.octodns] := by
  have h := main_exit_aggregation_amended
    ⟨true, false, true, false, false, false, none⟩ ⟨false, true, true, true⟩
    (by decide) rfl rfl rfl
  simpa using h

/-- C4 counterexample: with `--octodns --primary --secondary
9.11.227.25` both role flags are given, yet `parse_arguments` raises
no error (the conflict check only runs when `--dns` or `--all` is
selected) and `main` proceeds to run the octodns module — steps run
and may mutate the filesystem despite the conflicting role flags. -/
theorem both_roles_parse_ok_cex :
    parse_arguments_validate
        ⟨false, false, true, false, false, true, some ("9.11.227.25")⟩
        = true ∧
    main ⟨false, false, true, false, false, true, some ("9.11.227.25")⟩
        ⟨true, true, true, true⟩
      = MainOutcome.exited 0 [Module.octodns] := by
  decide

/-- C4 (amended): when `--dns` or `--all` is selected,
`parse_arguments` raises a parser error if both `--primary` and
`--secondary` are given (and likewise when neither is); and
`install_dns`, called with both `primary_ip` and `secondary_ip`
truthy, or with neither truthy, returns False without invoking any
step action (its step trace is empty).  Without `--dns`/`--all` the
conflicting role flags are not rejected (see the counterexample). -/
theorem role_flags_validation_amended :
    (∀ a : Args, (a.dns || a.all) = true → a.primary = true →
      pyTruthy a.secondary = true → parse_arguments_validate a = false) ∧
    (∀ a : Args, (a.dns || a.all) = true → a.primary = false →
      pyTruthy a.secondary = false → parse_arguments_validate a = false) ∧
    (∀ (p s : Option String) (e : DnsStepResults), pyTruthy p = true →
      pyTruthy s = true → install_dns p s e = (false, [])) ∧
    (∀ (p s : Option String) (e : DnsStepResults), pyTruthy p = false →
      pyTruthy s = false → install_dns p s e = (false, [])) := by
  refine ⟨?_, ?_, ?_, ?_⟩
  · intro a h1 h2 h3
    simp [parse_arguments_validate, h1, h2, h3]
  · intro a h1 h2 h3
    simp [parse_arguments_validate, h1, h2, h3]
  · intro p s e h1 h2
    simp [install_dns, h1, h2]
  · intro p s e h1 h2
    simp [install_dns, h1, h2]

/-- C4 witness: concrete conflicting and empty role selections. -/
theorem role_flags_validation_amended_witness :
    parse_arguments_validate
        ⟨false, true, false, false, false, true, some ("9.11.227.25")⟩
        = false ∧
    install_dns (some ("9.12.46.13")) (some ("9.11.227.25"))
        ⟨true, true, true, true, true, true, true, true, true, true, true,
          true⟩ = (false, []) ∧
    install_dns none none
        ⟨true, true, true, true, true, true, true, true, true, true, true,
          true⟩ = (false, []) :=
  ⟨role_flags_validation_amended.1
      ⟨false, true, false, false, false, true, some ("9.11.227.25")⟩
      (by decide) (by decide) (by decide),
    role_flags_validation_amended.2.2.1 (some ("9.12.46.13"))
      (some ("9.11.227.25")) _ (by decide) (by decide),
    role_flags_validation_amended.2.2.2 none none _ (by decide) (by decide)⟩

/-- A chain whose steps all succeed returns True having invoked every
step. -/
theorem runSteps_ok {α : Type} :
    ∀ (l : List (α × Bool)), (∀ x ∈ l, x.2 = true) →
      runSteps l = (true, l.map Prod.fst) := by
  intro l
  induction l with
  | nil => intro _; rfl
  | cons hd t ih =>
    intro h
    rcases hd with ⟨a, b⟩
    have hb : b = true := h (a, b) (List.mem_cons_self _ _)
    subst hb
    simp [runSteps, ih (fun x hx => h x (List.mem_cons_of_mem _ hx))]
/-- Once the `success` flag of the config-copy loop is cleared it
stays cleared for the rest of the loop body. -/
theorem copy_config_step_absorb (now : DateTime) (b1 b2 : Bool)
    (ip : Option String) (acc : CopyAcc) (f : CopyFile)
    (h : acc.1 = false) :
    (copy_config_step now b1 b2 ip acc f).1 = false := by
  rcases acc with ⟨s, d, bk⟩
  replace h : s = false := h
  subst h
  simp only [copy_config_step]
  repeat' split
  all_goals rfl

/-- Once cleared, the `success` flag stays cleared over the whole
config-copy fold. -/
theorem copy_config_foldl_absorb (now : DateTime) (b1 b2 : Bool)
    (ip : Option String) :
    ∀ (files : List CopyFile) (acc : CopyAcc), acc.1 = false →
      (files.foldl (copy_config_step now b1 b2 ip) acc).1 = false := by
  intro files
  induction files with
  | nil => intro acc h; simpa using h
  | cons f t ih =>
    intro acc h
    simp only [List.foldl_cons]
    exact ih _ (copy_config_step_absorb now b1 b2 ip acc f h)

/-- A failing overwrite copy clears the `success` flag. -/
theorem copy_config_step_copy_fail (now : DateTime) (b1 b2 : Bool)
    (ip : Option String) (acc : CopyAcc) (f : CopyFile)
    (h : f.copy_ok = false) :
    (copy_config_step now b1 b2 ip acc f).1 = false := by
  rcases acc with ⟨s, d, bk⟩
  simp only [copy_config_step]
  repeat' split
  all_goals simp_all

/-- A failing backup of an existing destination clears the `success`
flag. -/
theorem copy_config_step_backup_fail (now : DateTime) (b1 b2 : Bool)
    (ip : Option String) (acc : CopyAcc) (f : CopyFile)
    (hd : f.destContent.isSome = true) (hb : f.backup_copy_ok = false) :
    (copy_config_step now b1 b2 ip acc f).1 = false := by
  rcases acc with ⟨s, d, bk⟩
  obtain ⟨c, hc⟩ := Option.isSome_iff_exists.mp hd
  simp only [copy_config_step, hc, backup_file, hb]
  repeat' split
  all_goals simp_all [backup_file, hb]

/-- A file in the walk whose overwrite copy fails, or whose existing
destination cannot be backed up, clears the fold's `success` flag. -/
theorem copy_config_foldl_bad (now : DateTime) (b1 b2 : Bool)
    (ip : Option String) :
    ∀ (files : List CopyFile) (acc : CopyAcc),
      (∃ f ∈ files, f.copy_ok = false ∨
        (f.destContent.isSome = true ∧ f.backup_copy_ok = false)) →
      (files.foldl (copy_config_step now b1 b2 ip) acc).1 = false := by
  intro files
  induction files with
  | nil =>
    rintro acc ⟨f, hf, -⟩
    simp at hf
  | cons g t ih =>
    rintro acc ⟨f, hf, hbad⟩
    rcases List.mem_cons.mp hf with rfl | hft
    · simp only [List.foldl_cons]
      apply copy_config_foldl_absorb
      rcases hbad with h | ⟨h1, h2⟩
      · exact copy_config_step_copy_fail now b1 b2 ip acc f h
      · exact copy_config_step_backup_fail now b1 b2 ip acc f h1 h2
    · simp only [List.foldl_cons]
      exact ih _ ⟨f, hft, hbad⟩

/-- C3 counterexample: on a primary install, copying `named.conf.acl`
with a failing write inside `update_acl_file` still reports success:
the step returns True and the destination keeps the unsubstituted
`$ip` placeholder, contradicting the claim that the write failure
must make `copy_config_files` report failure. -/
theorem acl_write_failure_swallowed_cex :
    copy_config_files ⟨2026, 10, 12, 0, 0, 0⟩ true true true true true
        (some ("9.12.46.13"))
        [⟨"named.conf.acl", "key-list $ip", none, true, true, false⟩]
      = (true, [("named.conf.acl", some ("key-list $ip"))], []) ∧
    (update_acl_file ("key-list $ip") ("9.12.46.13") false).2 = true := by
  constructor
  · rfl
  · rfl

/-- C3 (amended): no failure in the copy loop is swallowed except the
write inside `update_acl_file`: a failing overwrite copy or a failing
backup of an existing destination makes `copy_config_files` report
failure, but the `IOError` of the write inside `update_acl_file` is
caught there, only logged (the function returns `None` either way),
and `copy_config_files` still reports success with the destination
left unsubstituted. -/
theorem acl_write_failure_amended :
    (∀ (now : DateTime) (f : CopyFile) (ip : String),
      f.destContent = none → f.copy_ok = true → f.acl_write_ok = false →
      (ip == "") = false →
      copy_config_files now true true true true true (some ip) [f]
        = (true, [(f.name, some f.srcContent)], [])) ∧
    (∀ c ip, update_acl_file c ip false = (c, true)) ∧
    (∀ (now : DateTime) (sourceDirExists d1 d2 b1 b2 : Bool)
        (ip : Option String) (files : List CopyFile),
      (∃ f ∈ files, f.copy_ok = false ∨
        (f.destContent.isSome = true ∧ f.backup_copy_ok = false)) →
      (copy_config_files now sourceDirExists d1 d2 b1 b2 ip files).1
        = false) := by
  refine ⟨?_, ?_, ?_⟩
  · intro now f ip hd hc ha hip
    simp only [copy_config_files, copy_config_step, List.foldl_cons,
      List.foldl_nil, hd, hc, ha, update_acl_file, pyTruthy, hip,
      Option.isSome_none, Bool.false_and, Bool.not_false, Bool.not_true,
      if_true, if_false, Bool.true_and, ite_self]
    repeat' split
    all_goals simp_all
  · intro c ip
    rfl
  · intro now sd d1 d2 b1 b2 ip files hbad
    simp only [copy_config_files]
    split
    · rfl
    · split
      · rfl
      · exact copy_config_foldl_bad now b1 b2 ip files _ hbad

/-- C3 witness: concrete instances of the amended claim. -/
theorem acl_write_failure_amended_witness :
    copy_config_files ⟨2026, 10, 12, 4, 30, 0⟩ true true true true true
        (some ("9.12.46.13"))
        [⟨"named.conf.acl", "key-list $ip", none, true, true, false⟩]
      = (true, [("named.conf.acl", some ("key-list $ip"))], []) ∧
    (copy_config_files ⟨2026, 10, 12, 4, 30, 0⟩ true true true true true
        none [⟨"named.conf", "zone data", none, true, false, true⟩]).1
      = false :=
  ⟨acl_write_failure_amended.1 ⟨2026, 10, 12, 4, 30, 0⟩
      ⟨"named.conf.acl", "key-list $ip", none, true, true, false⟩
      ("9.12.46.13") rfl rfl rfl rfl,
    acl_write_failure_amended.2.2 ⟨2026, 10, 12, 4, 30, 0⟩ true true true
      true true none [⟨"named.conf", "zone data", none, true, false, true⟩]
      ⟨⟨"named.conf", "zone data", none, true, false, true⟩,
        List.mem_singleton.mpr rfl, Or.inl rfl⟩⟩

/-- C5 counterexample: with template `host: $ip` and a mapping that
contains every referenced placeholder (`ip`), `create_config_file`
returns False and writes nothing — `substitute` is called with only
the three fixed names `server_url`, `server_api_key`, `server_ip`, so
the referenced `ip` raises `KeyError` — contradicting the claim that
such a template and mapping produce the substituted text and True. -/
theorem template_fixed_keys_cex :
    create_config_file ("host: $ip")
        [("ip", "10.0.0.1"), ("server_url", "https://netbox-dev.sgn.ibm.com"),
          ("server_api_key", "k0"), ("server_ip", "9.12.46.8")] true
      = Except.ok (false, none) ∧
    List.lookup ("ip")
        [("ip", "10.0.0.1"), ("server_url", "https://netbox-dev.sgn.ibm.com"),
          ("server_api_key", "k0"), ("server_ip", "9.12.46.8")]
      = some ("10.0.0.1") ∧
    templateSubstitute [("ip", "10.0.0.1")] ("host: $ip")
      = Except.ok ("host: 10.0.0.1") := by
  refine ⟨rfl, by decide, rfl⟩

/-- C5 (amended): `create_config_file` substitutes exactly the three
fixed placeholders `server_url`, `server_api_key`, `server_ip` taken
from the mapping: when the mapping has all three keys and the template
references no other placeholder, the destination receives exactly the
template with those placeholders replaced and the function returns
True; when the mapping lacks one of the three keys, or the template
references a placeholder outside the three (a `KeyError` inside
`substitute`), it returns False and the destination is not written at
all; a write failure also returns False. -/
theorem template_materialization_amended :
    (∀ (tmpl : String) (env : List (String × String)) (w : Bool)
        (u k i c : String),
      env.lookup ("server_url") = some u →
      env.lookup ("server_api_key") = some k →
      env.lookup ("server_ip") = some i →
      templateSubstitute
          [("server_url", u), ("server_api_key", k), ("server_ip", i)]
          tmpl = Except.ok c →
      create_config_file tmpl env w
        = Except.ok (w, if w then some c else none)) ∧
    (∀ (tmpl : String) (env : List (String × String)) (w : Bool),
      env.lookup ("server_url") = none →
      create_config_file tmpl env w = Except.ok (false, none)) ∧
    (∀ (tmpl : String) (env : List (String × String)) (w : Bool)
        (u : String),
      env.lookup ("server_url") = some u →
      env.lookup ("server_api_key") = none →
      create_config_file tmpl env w = Except.ok (false, none)) ∧
    (∀ (tmpl : String) (env : List (String × String)) (w : Bool)
        (u k : String),
      env.lookup ("server_url") = some u →
      env.lookup ("server_api_key") = some k →
      env.lookup ("server_ip") = none →
      create_config_file tmpl env w = Except.ok (false, none)) ∧
    (∀ (tmpl : String) (env : List (String × String)) (w : Bool)
        (u k i n : String),
      env.lookup ("server_url") = some u →
      env.lookup ("server_api_key") = some k →
      env.lookup ("server_ip") = some i →
      templateSubstitute
          [("server_url", u), ("server_api_key", k), ("server_ip", i)]
          tmpl = Except.error (TmplError.keyError n) →
      create_config_file tmpl env w = Except.ok (false, none)) := by
  refine ⟨?_, ?_, ?_, ?_, ?_⟩
  · intro tmpl env w u k i c h1 h2 h3 h4
    simp only [create_config_file, h1, h2, h3, h4]
    cases w <;> rfl
  · intro tmpl env w h1
    simp only [create_config_file, h1]
  · intro tmpl env w u h1 h2
    simp only [create_config_file, h1, h2]
  · intro tmpl env w u k h1 h2 h3
    simp only [create_config_file, h1, h2, h3]
  · intro tmpl env w u k i n h1 h2 h3 h4
    simp only [create_config_file, h1, h2, h3, h4]

/-- C5 witness: a concrete template over the three fixed placeholders
materializes exactly, and a concrete mapping missing `server_api_key`
fails without writing. -/
theorem template_materialization_amended_witness :
    create_config_file ("host: $server_ip")
        [("server_url", "https://netbox-dev.sgn.ibm.com"),
          ("server_api_key", "k0"), ("server_ip", "9.12.46.8")] true
      = Except.ok (true, some ("host: 9.12.46.8")) ∧
    create_config_file ("host: $server_ip")
        [("server_url", "https://netbox-dev.sgn.ibm.com")] true
      = Except.ok (false, none) :=
  ⟨template_materialization_amended.1 ("host: $server_ip") _ true _ _ _
      ("host: 9.12.46.8") rfl rfl rfl rfl,
    template_materialization_amended.2.2.1 ("host: $server_ip") _ true
      ("https://netbox-dev.sgn.ibm.com") rfl rfl⟩

set_option maxRecDepth 100000 in
/-- Lexicographic comparison of two-digit zero-padded renderings
agrees with numeric comparison below 100. -/
theorem pad2_natCmp :
    ∀ m, m < 100 → ∀ n, n < 100 →
      lexCmp (pad2 m) (pad2 n) = natCmp m n := by decide

/-- Appending behind equal-length heads compares the heads first. -/
theorem lexCmp_append (r1 r2 : List Char) :
    ∀ (a b : List Char), a.length = b.length →
      lexCmp (a ++ r1) (b ++ r2) = (lexCmp a b).then (lexCmp r1 r2) := by
  intro a
  induction a with
  | nil =>
    intro b hb
    cases b with
    | nil => simp [lexCmp, Ordering.then]
    | cons y ys => simp at hb
  | cons x xs ih =>
    intro b hb
    cases b with
    | nil => simp at hb
    | cons y ys =>
      simp only [List.cons_append, lexCmp]
      by_cases h1 : x < y
      · simp [h1, Ordering.then]
      · by_cases h2 : y < x
        · simp [h1, h2, Ordering.then]
        · simp only [h1, h2, if_false]
          exact ih ys (by simpa using hb)

/-- Equal head characters drop out of the comparison. -/
theorem lexCmp_cons_same (c : Char) (r1 r2 : List Char) :
    lexCmp (c :: r1) (c :: r2) = lexCmp r1 r2 := by
  simp [lexCmp]

/-- Splitting a natural into hundreds and remainder compares
componentwise. -/
theorem natCmp_then_split (a b : Nat) :
    (natCmp (a / 100) (b / 100)).then (natCmp (a % 100) (b % 100))
      = natCmp a b := by
  rcases Nat.lt_trichotomy (a / 100) (b / 100) with h | h | h
  · have hab : a < b := by omega
    simp [natCmp, h, hab, Ordering.then]
  · have h2 : natCmp (a / 100) (b / 100) = Ordering.eq := by
      simp [natCmp, h]
    rw [h2]
    show natCmp (a % 100) (b % 100) = natCmp a b
    unfold natCmp
    split_ifs <;> first | rfl | omega
  · have hab : b < a := by omega
    have hlt : ¬ a / 100 < b / 100 := by omega
    have hna : ¬ a < b := by omega
    simp [natCmp, hlt, h, hna, hab, Ordering.then]

/-- Lexicographic comparison of four-digit zero-padded renderings
agrees with numeric comparison below 10000. -/
theorem pad4_natCmp (m : Nat) (hm : m < 10000) (n : Nat)
    (hn : n < 10000) : lexCmp (pad4 m) (pad4 n) = natCmp m n := by
  unfold pad4
  rw [lexCmp_append _ _ _ _ (by rfl)]
  rw [pad2_natCmp (m / 100) (by omega) (n / 100) (by omega)]
  rw [pad2_natCmp (m % 100) (by omega) (n % 100) (by omega)]
  exact natCmp_then_split m n

/-- The `%Y%m%d_%H%M%S` renderings of two datetimes compare, byte by
byte, exactly as the datetimes compare chronologically. -/
theorem timestamp_chron (t1 t2 : DateTime) (h1 : t1.wf) (h2 : t2.wf) :
    lexCmp (timestamp_chars t1) (timestamp_chars t2) = chronCmp t1 t2 := by
  obtain ⟨hy1, hmo1, hd1, hh1, hmi1, hs1⟩ := h1
  obtain ⟨hy2, hmo2, hd2, hh2, hmi2, hs2⟩ := h2
  unfold timestamp_chars chronCmp
  rw [lexCmp_append _ _ (pad4 t1.year) (pad4 t2.year) (by rfl),
    pad4_natCmp t1.year hy1 t2.year hy2]
  rw [lexCmp_append _ _ (pad2 t1.month) (pad2 t2.month) (by rfl),
    pad2_natCmp t1.month hmo1 t2.month hmo2]
  rw [lexCmp_append _ _ (pad2 t1.day) (pad2 t2.day) (by rfl),
    pad2_natCmp t1.day hd1 t2.day hd2]
  rw [lexCmp_cons_same]
  rw [lexCmp_append _ _ (pad2 t1.hour) (pad2 t2.hour) (by rfl),
    pad2_natCmp t1.hour hh1 t2.hour hh2]
  rw [lexCmp_append _ _ (pad2 t1.minute) (pad2 t2.minute) (by rfl),
    pad2_natCmp t1.minute hmi1 t2.minute hmi2]
  rw [pad2_natCmp t1.second hs1 t2.second hs2]

/-- C6: `backup_file` is a no-op success on a missing file; on an
existing file it creates a backup named `<name>.<YYYYMMDD_HHMMSS>`
from the wall-clock time holding the original content; in
`copy_named_files` a backup failure skips the overwrite (the
destination keeps its old content and the step reports failure), and
on the success path the destination holds the new content while the
backup holds the original; and the timestamp format makes backup
names sort chronologically (byte-wise name comparison equals
chronological comparison). -/
theorem backup_before_overwrite_ok :
    (∀ (fname : String) (now : DateTime) (b1 b2 b3 : Bool),
      backup_file none fname now b1 b2 b3 = (true, none)) ∧
    (∀ (c fname : String) (now : DateTime) (bmk : Bool),
      backup_file (some c) fname now true bmk true
        = (true, some (fname ++ "." ++ String.mk (timestamp_chars now),
            c))) ∧
    (∀ (now : DateTime) (f : CopyFile) (c : String) (b1 b2 : Bool),
      f.destContent = some c → f.backup_copy_ok = false →
      copy_named_files now true true b1 b2 [f]
        = (false, [(f.name, some c)], [])) ∧
    (∀ (now : DateTime) (f : CopyFile) (c : String),
      f.destContent = some c → f.backup_copy_ok = true → f.copy_ok = true →
      copy_named_files now true true true true [f]
        = (true, [(f.name, some f.srcContent)],
            [(f.name ++ "." ++ String.mk (timestamp_chars now), c)])) ∧
    (∀ (t1 t2 : DateTime), t1.wf → t2.wf →
      lexCmp (timestamp_chars t1) (timestamp_chars t2) = chronCmp t1 t2) := by
  refine ⟨?_, ?_, ?_, ?_, timestamp_chron⟩
  · intro fname now b1 b2 b3
    rfl
  · intro c fname now bmk
    rfl
  · intro now f c b1 b2 hd hb
    simp [copy_named_files, copy_named_step, backup_file, hd, hb, ite_self]
  · intro now f c hd hb hc
    simp [copy_named_files, copy_named_step, backup_file, hd, hb, hc]

/-- C6 witness: a concrete backup, its literal timestamped name, and a
concrete chronological comparison. -/
theorem backup_before_overwrite_ok_witness :
    backup_file (some ("old zone")) ("named.conf")
        ⟨2026, 10, 12, 4, 30, 0⟩ true true true
      = (true, some ("named.conf" ++ "." ++
          String.mk (timestamp_chars ⟨2026, 10, 12, 4, 30, 0⟩),
          "old zone")) ∧
    String.mk (timestamp_chars ⟨2026, 10, 12, 4, 30, 0⟩)
      = "20261012_043000" ∧
    lexCmp (timestamp_chars ⟨2026, 10, 12, 4, 30, 0⟩)
        (timestamp_chars ⟨2026, 10, 12, 4, 31, 0⟩)
      = chronCmp ⟨2026, 10, 12, 4, 30, 0⟩ ⟨2026, 10, 12, 4, 31, 0⟩ ∧
    copy_named_files ⟨2026, 10, 12, 4, 30, 0⟩ true true true true
        [⟨"named.ca", "new hints", some ("old hints"), true, true, true⟩]
      = (true, [("named.ca", some ("new hints"))],
          [("named.ca" ++ "." ++
            String.mk (timestamp_chars ⟨2026, 10, 12, 4, 30, 0⟩),
            "old hints")]) :=
  ⟨backup_before_overwrite_ok.2.1 ("old zone") ("named.conf")
      ⟨2026, 10, 12, 4, 30, 0⟩ true,
    by decide,
    backup_before_overwrite_ok.2.2.2.2 ⟨2026, 10, 12, 4, 30, 0⟩
      ⟨2026, 10, 12, 4, 31, 0⟩ (by decide) (by decide),
    backup_before_overwrite_ok.2.2.2.1 ⟨2026, 10, 12, 4, 30, 0⟩
      ⟨"named.ca", "new hints", some ("old hints"), true, true, true⟩
      ("old hints") rfl rfl rfl⟩

/-- C9: the OctoDNS directory provisioning sequence is idempotent:
if one run succeeds (in a fixed environment of chown/chmod/mkdir
outcomes), running it again on the resulting state succeeds and
leaves the ownership, the permission mode and the SGID bit exactly as
after the first run. -/
theorem octodns_provision_idempotent :
    ∀ (mkdirOk chownOk chmod1Ok chmod2Ok : Bool)
      (defOwner defGroup : String) (defMode : Nat) (user group : String)
      (mode : Nat) (s0 s1 : DirState),
      octodns_provision mkdirOk chownOk chmod1Ok chmod2Ok defOwner
          defGroup defMode user group mode s0 = (true, s1) →
      octodns_provision mkdirOk chownOk chmod1Ok chmod2Ok defOwner
          defGroup defMode user group mode s1 = (true, s1) := by
  intro mk ch c1 c2 dO dG dM u g m s0 s1 h
  rcases s0 with ⟨p0, o0, g0, m0⟩
  cases p0 <;> cases mk <;> cases ch <;> cases c1 <;> cases c2 <;>
    simp_all [octodns_provision, create_config_directory, makedirs,
      set_directory_ownership, set_directory_permissions] <;>
    (subst h; rfl)

/-- C9 witness: the configured values (mode 0o755, owner root:named):
running the provisioning on the state left by a successful first run
succeeds and changes nothing (0o755 = 493, with SGID 0o2755 = 1517). -/
theorem octodns_provision_idempotent_witness :
    octodns_provision true true true true ("root") ("root") 493 ("root")
        ("named") 493 ⟨true, "root", "named", 1517⟩
      = (true, ⟨true, "root", "named", 1517⟩) :=
  octodns_provision_idempotent true true true true ("root") ("root") 493
    ("root") ("named") 493 ⟨false, "root", "root", 493⟩
    ⟨true, "root", "named", 1517⟩ (by decide)

end NetboxDnsInstall
